import Mathlib

/-
Verification of the RSVP application core (src/main.py): the duplicate
detector, the RSVP submission and confirmation flows, the passcode gate,
the rate limiter and the email-verification route, embedded shallowly as
pure Lean functions over explicit state.

Conventions of the embedding:
- Database connectivity is modelled by one Bool per get_db_connection call
  in the Python code (true = the connection succeeds); a None connection
  makes each helper return exactly what the Python fallback returns.
- Python string truthiness is the test against the empty string; .strip()
  is pyStrip and .lower() is pyLower, defined below by structural
  recursion on the character list so that concrete runs reduce in the
  kernel.
- SQL NULL for the optional token column is Option; a NULL phone and an
  empty phone behave identically under Python truthiness, so phone is a
  plain String.
-/

namespace EventApp

/-- A row of the rsvps table as used by the routes (id, event_uuid, name,
email, phone, additional_info, email_verified, verification_token). -/
structure RsvpRow where
  id : Nat
  event_uuid : String
  name : String
  email : String
  phone : String
  additional_info : String
  email_verified : Bool
  verification_token : Option String
deriving DecidableEq

/-- The event_data JSON document, restricted to the fields the core logic
touches (title for rendering, the registered counter). -/
structure EventData where
  title : String
  registered : Nat
deriving DecidableEq

/-- The events and rsvps tables for one event page flow: the event row
(possibly absent), its passcode_hash column, and all rsvps rows. -/
structure DbState where
  event : Option EventData
  passcode_hash : Option String
  rsvps : List RsvpRow
deriving DecidableEq

/-- The pending_rsvp_{uuid} session entry staged on a soft duplicate. -/
structure PendingRsvp where
  name : String
  email : String
  phone : String
  additional_info : String
deriving DecidableEq

/-- The per-browser session: event_{uuid}_authenticated, the staged
pending RSVP for this event, and admin_authenticated. -/
structure Session where
  authenticated : Bool
  pending_rsvp : Option PendingRsvp
  admin_authenticated : Bool
deriving DecidableEq

/-- Python str.lower restricted to the ASCII range, applied to the
underlying character list. -/
def pyLower (s : String) : String :=
  ⟨s.data.map Char.toLower⟩

/-- Strip leading whitespace from a character list. -/
def stripLeft (l : List Char) : List Char :=
  l.dropWhile Char.isWhitespace

/-- Python str.strip: drop whitespace from both ends. -/
def pyStrip (s : String) : String :=
  ⟨(stripLeft ((stripLeft s.data).reverse)).reverse⟩

/-- get_event_from_db: returns the event row when the connection is up,
and the None fallback otherwise. -/
def get_event_from_db (conn : Bool) (db : DbState) : Option EventData :=
  if conn then db.event else none

/-- save_event_to_db with passcode None: upserts event_data, keeping the
stored passcode_hash (COALESCE); on a failed connection returns without
writing. -/
def save_event_to_db (conn : Bool) (db : DbState) (ev : EventData) : DbState :=
  if conn then { db with event := some ev } else db

/-- is_rate_limited: drop timestamps older than window_seconds, refuse if
max_requests many remain, otherwise record the current time. Returns the
decision together with the updated timestamp list for this key. -/
def is_rate_limited (prev : List Nat) (now : Nat) (max_requests : Nat)
    (window_seconds : Nat) : Bool × List Nat :=
  let kept := prev.filter (fun t => now - t < window_seconds)
  if max_requests ≤ kept.length then (true, kept)
  else (false, kept ++ [now])

/-- Character class of the local part of the email regex. -/
def emailLocalChar (c : Char) : Bool :=
  c.isAlpha || c.isDigit || c == '.' || c == '_' || c == '%' || c == '+' || c == '-'

/-- Character class of the domain part of the email regex. -/
def emailDomainChar (c : Char) : Bool :=
  c.isAlpha || c.isDigit || c == '.' || c == '-'

/-- Split a character list on a separator character, Python str.split
with a one-character separator: the list of groups between occurrences,
with empty groups kept. -/
def splitOnChar (sep : Char) : List Char → List (List Char)
  | [] => [[]]
  | c :: cs =>
    if c == sep then [] :: splitOnChar sep cs
    else
      match splitOnChar sep cs with
      | [] => [[c]]
      | g :: gs => (c :: g) :: gs

/-- isValidEmail: the anchored regex of main.py. Both character classes
exclude the at sign, so a match forces exactly one at sign; the domain
must end in a literal dot followed by an alphabetic TLD of length at
least two, the dot chosen being necessarily the last one (the TLD class
has no dot), with a non-empty domain prefix before it. -/
def isValidEmail (email : String) : Bool :=
  match splitOnChar '@' email.data with
  | [lp, dom] =>
      !lp.isEmpty && lp.all emailLocalChar && dom.all emailDomainChar &&
      (let labels := splitOnChar '.' dom
       decide (2 ≤ labels.length) &&
       (match labels.getLast? with
        | some tld =>
            decide (2 ≤ tld.length) && tld.all Char.isAlpha &&
            decide (tld.length + 2 ≤ dom.length)
        | none => false))
  | _ => false

/-- The exact-name test of check_rsvp_duplicate: lowercased, stripped
equality of the candidate name with the stored name. -/
def name_matches (cand : String) (r : RsvpRow) : Bool :=
  pyStrip (pyLower cand) == pyStrip (pyLower r.name)

/-- The soft email test: both emails non-empty and equal after lowering
and stripping. -/
def email_matches (email : String) (r : RsvpRow) : Bool :=
  email != "" && r.email != "" && (pyStrip (pyLower email) == pyStrip (pyLower r.email))

/-- The soft phone test: both phones non-empty and equal after stripping,
with no case normalization. -/
def phone_matches (phone : String) (r : RsvpRow) : Bool :=
  phone != "" && r.phone != "" && (pyStrip phone == pyStrip r.phone)

/-- One loop iteration worth of soft-field accumulation: append "email"
then "phone" to the running duplicate_fields list when they match. -/
def soft_fields_of_row (email phone : String) (r : RsvpRow)
    (acc : List String) : List String :=
  let acc1 := if email_matches email r then acc ++ ["email"] else acc
  if phone_matches phone r then acc1 ++ ["phone"] else acc1

/-- The scanning loop of check_rsvp_duplicate: exact name match returns
immediately; otherwise soft fields accumulate and the loop returns as
soon as duplicate_fields is non-empty; the fall-through returns the
clean triple. -/
def check_rsvp_scan (name email phone : String) :
    List RsvpRow → List String → Bool × List String × Option RsvpRow
  | [], _ => (false, [], none)
  | r :: rest, acc =>
    if name_matches name r then (true, ["name"], some r)
    else
      let fields := soft_fields_of_row email phone r acc
      if fields != [] then (false, fields, some r)
      else check_rsvp_scan name email phone rest fields

/-- check_rsvp_duplicate: on a live connection, scan the rsvps rows of
this event in table order; on a failed connection return the clean
fallback triple. -/
def check_rsvp_duplicate (conn : Bool) (allRsvps : List RsvpRow)
    (event_uuid name email phone : String) : Bool × List String × Option RsvpRow :=
  if conn then
    check_rsvp_scan name email phone
      (allRsvps.filter (fun r => r.event_uuid == event_uuid)) []
  else (false, [], none)

/-- The responses the rsvp_event and confirm_rsvp_anyway routes can
produce: a 404, a plain redirect to the event page, a redirect carrying
an rsvp_error code or message, the soft-duplicate warning redirect, and
the success redirect. -/
inductive SubmitOutcome where
  | eventNotFound
  | redirectPlain
  | rsvpError (code : String)
  | rsvpWarning
  | rsvpSuccess
deriving DecidableEq

/-- Result of a submission: response, database, session and the rate
limiter timestamp list for this source address. -/
structure SubmitResult where
  outcome : SubmitOutcome
  db : DbState
  sess : Session
  rate : List Nat
deriving DecidableEq

/-- Result of a confirmation: response, database and session. -/
structure ConfirmResult where
  outcome : SubmitOutcome
  db : DbState
  sess : Session
deriving DecidableEq

/-- The persistence block of rsvp_event (the body of the try under a
live INSERT connection, lines 487 to 514 of main.py): insert the new
row, re-read the event, increment registered and save, reporting
save_failed when the INSERT raises or the re-read of the event fails
and db_error when no INSERT connection could be opened. -/
def rsvp_persist_clean (db : DbState) (sess : Session) (rate2 : List Nat)
    (c_ins c_refetch c_save insert_ok : Bool) (row : RsvpRow) : SubmitResult :=
  if c_ins then
    if insert_ok then
      match get_event_from_db c_refetch { db with rsvps := db.rsvps ++ [row] } with
      | none => ⟨.rsvpError "save_failed", { db with rsvps := db.rsvps ++ [row] }, sess, rate2⟩
      | some ev =>
        ⟨.rsvpSuccess,
         save_event_to_db c_save { db with rsvps := db.rsvps ++ [row] }
           { ev with registered := ev.registered + 1 },
         sess, rate2⟩
    else ⟨.rsvpError "save_failed", db, sess, rate2⟩
  else ⟨.rsvpError "db_error", db, sess, rate2⟩

/-- rsvp_event, the POST /event/uuid/rsvp route. Connection flags, in
the order the Python code opens connections: c_ev for the initial
get_event_from_db, c_dup inside check_rsvp_duplicate, c_ins for the
INSERT connection, c_refetch for the re-read of the event, c_save
inside save_event_to_db; insert_ok models the INSERT statement itself
raising (False) versus succeeding. fresh_token is the uuid4 value and
next_id the serial id handed out by the store. -/
def rsvp_event (db : DbState) (sess : Session) (rate : List Nat) (now : Nat)
    (c_ev c_dup c_ins c_refetch c_save insert_ok : Bool)
    (event_uuid nameF emailF phoneF addF fresh_token : String)
    (next_id : Nat) : SubmitResult :=
  if !sess.authenticated then ⟨.redirectPlain, db, sess, rate⟩
  else if (is_rate_limited rate now 3 300).1 then
    ⟨.rsvpError "Too many RSVP attempts. Please try again later.", db, sess,
     (is_rate_limited rate now 3 300).2⟩
  else
    match get_event_from_db c_ev db with
    | none => ⟨.eventNotFound, db, sess, (is_rate_limited rate now 3 300).2⟩
    | some _ =>
      if pyStrip nameF == "" || pyStrip emailF == "" then
        ⟨.rsvpError "required_fields", db, sess, (is_rate_limited rate now 3 300).2⟩
      else if !isValidEmail (pyStrip emailF) then
        ⟨.rsvpError "invalid_email", db, sess, (is_rate_limited rate now 3 300).2⟩
      else if decide ((pyStrip nameF).length < 2) || decide (100 < (pyStrip nameF).length) then
        ⟨.rsvpError "invalid_name", db, sess, (is_rate_limited rate now 3 300).2⟩
      else if pyStrip phoneF != "" &&
          (decide ((pyStrip phoneF).length < 10) || decide (20 < (pyStrip phoneF).length)) then
        ⟨.rsvpError "invalid_phone", db, sess, (is_rate_limited rate now 3 300).2⟩
      else if (check_rsvp_duplicate c_dup db.rsvps event_uuid (pyStrip nameF)
          (pyStrip emailF) (pyStrip phoneF)).1 then
        ⟨.rsvpError "name_taken", db, sess, (is_rate_limited rate now 3 300).2⟩
      else if (check_rsvp_duplicate c_dup db.rsvps event_uuid (pyStrip nameF)
          (pyStrip emailF) (pyStrip phoneF)).2.1 != [] then
        ⟨.rsvpWarning, db,
         { sess with
           pending_rsvp := some ⟨pyStrip nameF, pyStrip emailF, pyStrip phoneF, pyStrip addF⟩ },
         (is_rate_limited rate now 3 300).2⟩
      else
        rsvp_persist_clean db sess (is_rate_limited rate now 3 300).2
          c_ins c_refetch c_save insert_ok
          ⟨next_id, event_uuid, pyStrip nameF, pyStrip emailF, pyStrip phoneF,
           pyStrip addF, false, some fresh_token⟩

/-- confirm_rsvp_anyway, the POST /event/uuid/rsvp/confirm route.
Connection flags in call order: c_ev for get_event_from_db, c_ins for
the INSERT connection, c_save inside save_event_to_db. On a None INSERT
connection the Python code only increments its local copy of the event
and reports success, without touching the store or the session. -/
def confirm_rsvp_anyway (db : DbState) (sess : Session)
    (c_ev c_ins c_save insert_ok : Bool) (event_uuid : String)
    (next_id : Nat) : ConfirmResult :=
  if !sess.authenticated then ⟨.redirectPlain, db, sess⟩
  else
    match get_event_from_db c_ev db with
    | none => ⟨.eventNotFound, db, sess⟩
    | some ev =>
      match sess.pending_rsvp with
      | none => ⟨.redirectPlain, db, sess⟩
      | some p =>
        if pyStrip p.name == "" || pyStrip p.email == "" then
          ⟨.rsvpError "Name and email are required", db, sess⟩
        else if c_ins then
          if insert_ok then
            ⟨.rsvpSuccess,
             save_event_to_db c_save
               { db with rsvps := db.rsvps ++
                   [⟨next_id, event_uuid, pyStrip p.name, pyStrip p.email, pyStrip p.phone,
                     pyStrip p.additional_info, false, none⟩] }
               { ev with registered := ev.registered + 1 },
             { sess with pending_rsvp := none }⟩
          else ⟨.rsvpError "Error saving RSVP. Please try again.", db, sess⟩
        else ⟨.rsvpSuccess, db, sess⟩

/-- Responses of the GET /verify-email/token route. -/
inductive VerifyOutcome where
  | dbError
  | verifiedPage (event_uuid : String)
  | invalidToken
deriving DecidableEq

/-- The WHERE clause of the verification UPDATE: the row's token column
equals the supplied token (a NULL column never matches). -/
def token_row_matches (token : String) (r : RsvpRow) : Bool :=
  r.verification_token == some token

/-- The effect of the verification UPDATE on one row: set email_verified
on a matching row, keeping the token column untouched. -/
def mark_verified_row (token : String) (r : RsvpRow) : RsvpRow :=
  if token_row_matches token r then { r with email_verified := true } else r

/-- verify_email: UPDATE rsvps SET email_verified = TRUE WHERE
verification_token matches, RETURNING event_uuid; fetchone takes the
first updated row in table order; no row updated renders the invalid
token page. The token column is left untouched. -/
def verify_email (conn : Bool) (rsvps : List RsvpRow) (token : String) :
    VerifyOutcome × List RsvpRow :=
  if conn then
    match rsvps.filter (token_row_matches token) with
    | [] => (.invalidToken, rsvps.map (mark_verified_row token))
    | r :: _ => (.verifiedPage r.event_uuid, rsvps.map (mark_verified_row token))
  else (.dbError, rsvps)

/-- Responses of the GET /event/uuid page relevant to the gate. -/
inductive PageOutcome where
  | notFoundPage
  | showEvent
  | passwordForm (errorMsg : Option String)
  | redirectSelf
deriving DecidableEq

/-- The passcode gate portion of event_page: with no stored hash the
session is marked authenticated and the page is shown; with a hash, a
non-empty supplied password is verified (check_password_hash is the
opaque verify argument); otherwise an authenticated session shows the
page and an unauthenticated one gets the password form. -/
def event_page_gate (c_ev : Bool) (db : DbState) (verify : String → Bool)
    (sess : Session) (password : Option String) : PageOutcome × Session :=
  match get_event_from_db c_ev db with
  | none => (.notFoundPage, sess)
  | some _ =>
    match db.passcode_hash with
    | none => (.showEvent, { sess with authenticated := true })
    | some _ =>
      match password with
      | some pw =>
        if pw != "" then
          if verify pw then (.redirectSelf, { sess with authenticated := true })
          else (.passwordForm (some "Invalid passcode"), sess)
        else if sess.authenticated then (.showEvent, sess)
        else (.passwordForm none, sess)
      | none =>
        if sess.authenticated then (.showEvent, sess)
        else (.passwordForm none, sess)

/-- Responses of the POST /event/uuid/authenticate route. -/
inductive AuthOutcome where
  | notFoundAuth
  | redirectEvent
  | invalidPasscode
deriving DecidableEq

/-- authenticate_event: with no stored hash the session is marked
authenticated and the guest is redirected without any check of the
supplied form password; otherwise check_password_hash decides. -/
def authenticate_event (c_ev : Bool) (db : DbState) (verify : String → Bool)
    (sess : Session) (password : String) : AuthOutcome × Session :=
  match get_event_from_db c_ev db with
  | none => (.notFoundAuth, sess)
  | some _ =>
    match db.passcode_hash with
    | none => (.redirectEvent, { sess with authenticated := true })
    | some _ =>
      if verify password then (.redirectEvent, { sess with authenticated := true })
      else (.invalidPasscode, sess)

/-- Responses of the POST branch of /event/uuid/admin/login. -/
inductive AdminOutcome where
  | notFoundAdmin
  | tooManyAttempts
  | redirectAdmin
  | invalidCode
deriving DecidableEq

/-- The POST branch of admin_login: event lookup, then the 5 per 900
seconds rate check, then the comparison of the stripped form code with
the ADMIN_CODE environment value under Python truthiness. -/
def admin_login_post (c_ev : Bool) (db : DbState) (rate : List Nat) (now : Nat)
    (admin_code_env : Option String) (supplied : String)
    (sess : Session) : AdminOutcome × Session × List Nat :=
  match get_event_from_db c_ev db with
  | none => (.notFoundAdmin, sess, rate)
  | some _ =>
    let rl := is_rate_limited rate now 5 900
    if rl.1 then (.tooManyAttempts, sess, rl.2)
    else
      let code := pyStrip supplied
      match admin_code_env with
      | some ac =>
        if code != "" && ac != "" && code == ac then
          (.redirectAdmin, { sess with admin_authenticated := true }, rl.2)
        else (.invalidCode, sess, rl.2)
      | none => (.invalidCode, sess, rl.2)

/-- Following the words of the spec rather than the source, for
comparison with is_rate_limited: a fixed-window limiter partitions time
into consecutive windows of window_seconds and refuses a request when
max_requests earlier requests already fell inside the current window. -/
def spec_fixed_window_limited (prev : List Nat) (now : Nat) (max_requests : Nat)
    (window_seconds : Nat) : Bool :=
  let window_start := now / window_seconds * window_seconds
  max_requests ≤ (prev.filter (fun t => window_start ≤ t && t ≤ now)).length

/-! Helper lemmas about the duplicate scan. -/

theorem filter_event_uuid_eq_self (rows : List RsvpRow) (eu : String)
    (h : ∀ x ∈ rows, x.event_uuid = eu) :
    rows.filter (fun r => r.event_uuid == eu) = rows := by
  induction rows with
  | nil => rfl
  | cons a l ih =>
    have ha : a.event_uuid = eu := h a (by simp)
    simp only [List.filter_cons, ha, beq_self_eq_true, if_pos]
    rw [ih (fun x hx => h x (by simp [hx]))]

theorem check_rsvp_scan_cons_skip (name email phone : String) (r : RsvpRow)
    (rest : List RsvpRow)
    (h1 : name_matches name r = false)
    (h2 : soft_fields_of_row email phone r [] = []) :
    check_rsvp_scan name email phone (r :: rest) [] =
      check_rsvp_scan name email phone rest [] := by
  simp [check_rsvp_scan, h1, h2]

theorem check_rsvp_scan_exact_after_clean_prefix
    (pre post : List RsvpRow) (r : RsvpRow) (name email phone : String)
    (hpre : ∀ x ∈ pre,
      name_matches name x = false ∧ soft_fields_of_row email phone x [] = [])
    (hr : name_matches name r = true) :
    check_rsvp_scan name email phone (pre ++ r :: post) [] =
      (true, ["name"], some r) := by
  induction pre with
  | nil => simp [check_rsvp_scan, hr]
  | cons a l ih =>
    obtain ⟨h1, h2⟩ := hpre a (by simp)
    rw [List.cons_append, check_rsvp_scan_cons_skip name email phone a _ h1 h2]
    exact ih (fun x hx => hpre x (by simp [hx]))

theorem check_rsvp_scan_soft_at_first_contributor
    (pre post : List RsvpRow) (r : RsvpRow) (name email phone : String)
    (hpre : ∀ x ∈ pre,
      name_matches name x = false ∧ soft_fields_of_row email phone x [] = [])
    (hrname : name_matches name r = false)
    (hfields : soft_fields_of_row email phone r [] ≠ []) :
    check_rsvp_scan name email phone (pre ++ r :: post) [] =
      (false, soft_fields_of_row email phone r [], some r) := by
  induction pre with
  | nil => simp [check_rsvp_scan, hrname, hfields]
  | cons a l ih =>
    obtain ⟨h1, h2⟩ := hpre a (by simp)
    rw [List.cons_append, check_rsvp_scan_cons_skip name email phone a _ h1 h2]
    exact ih (fun x hx => hpre x (by simp [hx]))

/-! Claim C1. -/

/-- C1: amended. An exact name match yields EXACT only when no earlier
row of the scan contributed a soft email or phone match: the scan
returns EXACT at the first name-matching row provided every row before
it neither name-matches nor soft-matches the candidate; an earlier
soft-matching row instead ends the scan with a SOFT result. -/
theorem c1_exact_requires_no_earlier_soft_match
    (pre post : List RsvpRow) (r : RsvpRow) (eu name email phone : String)
    (hall : ∀ x ∈ pre ++ r :: post, x.event_uuid = eu)
    (hpre : ∀ x ∈ pre,
      name_matches name x = false ∧ soft_fields_of_row email phone x [] = [])
    (hr : name_matches name r = true) :
    check_rsvp_duplicate true (pre ++ r :: post) eu name email phone =
      (true, ["name"], some r) := by
  unfold check_rsvp_duplicate
  rw [if_pos rfl, filter_event_uuid_eq_self _ eu hall]
  exact check_rsvp_scan_exact_after_clean_prefix pre post r name email phone hpre hr

def c1x_row1 : RsvpRow := ⟨1, "E", "alice", "a@x.com", "1112223333", "", false, none⟩

def c1x_row2 : RsvpRow := ⟨2, "E", "bob", "b@y.com", "0987654321", "", false, none⟩

/-- C1: counterexample. The store holds a row whose normalized name
equals the candidate's, yet classify does not return EXACT, because an
earlier row matches the candidate's email and the scan returns SOFT
before ever reaching the name-matching row. -/
theorem c1_counterexample_exact_hidden_by_earlier_soft :
    name_matches "bob" c1x_row2 = true ∧
    check_rsvp_duplicate true [c1x_row1, c1x_row2] "E" "bob" "a@x.com" "" =
      (false, ["email"], some c1x_row1) := by decide

def c1w_row1 : RsvpRow := ⟨1, "E", "alice", "a@x.com", "1112223333", "", false, none⟩

def c1w_row2 : RsvpRow := ⟨2, "E", "bob", "b@y.com", "0987654321", "", false, none⟩

/-- C1: witness for the amended theorem at a concrete store. -/
theorem c1_exact_requires_no_earlier_soft_match_witness :
    (∀ x ∈ [c1w_row1] ++ c1w_row2 :: [], x.event_uuid = "E") ∧
    (∀ x ∈ [c1w_row1],
      name_matches "bob" x = false ∧ soft_fields_of_row "b@y.com" "" x [] = []) ∧
    check_rsvp_duplicate true ([c1w_row1] ++ c1w_row2 :: []) "E" "bob" "b@y.com" "" =
      (true, ["name"], some c1w_row2) :=
  ⟨by decide, by decide,
   c1_exact_requires_no_earlier_soft_match [c1w_row1] [] c1w_row2 "E" "bob" "b@y.com" ""
     (by decide) (by decide) (by decide)⟩

/-! Claim C2. -/

/-- C2: amended. Soft-duplicate fields are not accumulated across the
whole scan: the scan stops at the first row that contributes any soft
field and returns exactly that row's fields. In particular the result
contains both email and phone only when that single first-contributing
row matches the candidate on both; it is bound to that row. -/
theorem c2_soft_fields_come_from_first_contributing_row_only
    (pre post : List RsvpRow) (r : RsvpRow) (eu name email phone : String)
    (hall : ∀ x ∈ pre ++ r :: post, x.event_uuid = eu)
    (hpre : ∀ x ∈ pre,
      name_matches name x = false ∧ soft_fields_of_row email phone x [] = [])
    (hrname : name_matches name r = false)
    (hre : email_matches email r = true)
    (hrp : phone_matches phone r = true) :
    check_rsvp_duplicate true (pre ++ r :: post) eu name email phone =
      (false, ["email", "phone"], some r) := by
  have hfields : soft_fields_of_row email phone r [] = ["email", "phone"] := by
    simp [soft_fields_of_row, hre, hrp]
  unfold check_rsvp_duplicate
  rw [if_pos rfl, filter_event_uuid_eq_self _ eu hall]
  rw [check_rsvp_scan_soft_at_first_contributor pre post r name email phone hpre hrname
    (by rw [hfields]; exact List.cons_ne_nil _ _), hfields]

def c2x_row1 : RsvpRow := ⟨1, "E", "alice", "a@x.com", "1112223333", "", false, none⟩

def c2x_row2 : RsvpRow := ⟨2, "E", "bob", "b@y.com", "1234567890", "", false, none⟩

/-- C2: counterexample. The candidate's email matches the first stored
row and its phone matches the second, yet the result lists only email:
accumulation does not continue past the first contributing row, so no
SOFT result ever combines fields from different rows. -/
theorem c2_counterexample_no_cross_row_accumulation :
    email_matches "a@x.com" c2x_row1 = true ∧
    phone_matches "1234567890" c2x_row2 = true ∧
    name_matches "carol" c2x_row1 = false ∧
    name_matches "carol" c2x_row2 = false ∧
    check_rsvp_duplicate true [c2x_row1, c2x_row2] "E" "carol" "a@x.com" "1234567890" =
      (false, ["email"], some c2x_row1) := by decide

def c2w_row1 : RsvpRow := ⟨1, "E", "alice", "z@q.com", "1112223333", "", false, none⟩

def c2w_row2 : RsvpRow := ⟨2, "E", "bob", "a@x.com", "1234567890", "", false, none⟩

/-- C2: witness for the amended theorem at a concrete store whose second
row matches both email and phone. -/
theorem c2_soft_fields_come_from_first_contributing_row_only_witness :
    email_matches "a@x.com" c2w_row2 = true ∧
    phone_matches "1234567890" c2w_row2 = true ∧
    check_rsvp_duplicate true ([c2w_row1] ++ c2w_row2 :: []) "E" "carol" "a@x.com" "1234567890" =
      (false, ["email", "phone"], some c2w_row2) :=
  ⟨by decide, by decide,
   c2_soft_fields_come_from_first_contributing_row_only [c2w_row1] [] c2w_row2
     "E" "carol" "a@x.com" "1234567890" (by decide) (by decide) (by decide)
     (by decide) (by decide)⟩

/-! Claim C3. -/

/-- C3: amended. Confirming a currently staged pending RSVP persists it
and increments the registered counter by 1 and clears the pending stage,
but the row is inserted with a NULL verification token: the confirm
path issues no verification token at all, so the newly persisted RSVP
carries no token, fresh or otherwise. -/
theorem c3_confirm_persists_increments_clears_but_no_token
    (db : DbState) (sess : Session) (p : PendingRsvp) (ev : EventData)
    (eu : String) (nid : Nat)
    (hauth : sess.authenticated = true)
    (hev : db.event = some ev)
    (hp : sess.pending_rsvp = some p)
    (hname : pyStrip p.name ≠ "")
    (hemail : pyStrip p.email ≠ "") :
    confirm_rsvp_anyway db sess true true true true eu nid =
      ⟨.rsvpSuccess,
       { db with
           event := some { ev with registered := ev.registered + 1 },
           rsvps := db.rsvps ++
             [⟨nid, eu, pyStrip p.name, pyStrip p.email, pyStrip p.phone,
               pyStrip p.additional_info, false, none⟩] },
       { sess with pending_rsvp := none }⟩ := by
  simp [confirm_rsvp_anyway, get_event_from_db, save_event_to_db, hauth, hev, hp,
    hname, hemail]

def c3x_db : DbState :=
  ⟨some ⟨"Gala", 0⟩, some "h",
   [⟨1, "E", "Jane Doe", "jane@x.com", "5551234567", "", false, some "t1"⟩]⟩

def c3x_sess : Session :=
  ⟨true, some ⟨"John Smith", "jane@x.com", "5559999999", ""⟩, false⟩

/-- C3: counterexample. A fully successful confirmation of a staged
pending RSVP persists the new row with a NULL verification token, not
with a freshly generated one distinct from other tokens: the stored
token column of the confirmed row is none. -/
theorem c3_counterexample_confirmed_row_has_no_token :
    (confirm_rsvp_anyway c3x_db c3x_sess true true true true "E" 2).outcome =
      .rsvpSuccess ∧
    (confirm_rsvp_anyway c3x_db c3x_sess true true true true "E" 2).db.rsvps.map
      (fun r => r.verification_token) = [some "t1", none] := by decide

def c3w_db : DbState := ⟨some ⟨"Gala", 0⟩, none, []⟩

def c3w_sess : Session :=
  ⟨true, some ⟨"John Smith", "jane@x.com", "5559999999", ""⟩, false⟩

/-- C3: witness for the amended theorem at a concrete state. -/
theorem c3_confirm_persists_increments_clears_but_no_token_witness :
    c3w_sess.authenticated = true ∧
    c3w_db.event = some ⟨"Gala", 0⟩ ∧
    c3w_sess.pending_rsvp = some ⟨"John Smith", "jane@x.com", "5559999999", ""⟩ ∧
    confirm_rsvp_anyway c3w_db c3w_sess true true true true "E" 1 =
      ⟨.rsvpSuccess,
       ⟨some ⟨"Gala", 1⟩, none,
        [⟨1, "E", "John Smith", "jane@x.com", "5559999999", "", false, none⟩]⟩,
       ⟨true, none, false⟩⟩ :=
  ⟨rfl, rfl, rfl, by
    rw [c3_confirm_persists_increments_clears_but_no_token c3w_db c3w_sess
      ⟨"John Smith", "jane@x.com", "5559999999", ""⟩ ⟨"Gala", 0⟩ "E" 1
      rfl rfl rfl (by decide) (by decide)]
    decide⟩

/-! Helper lemmas about the persistence block. -/

theorem rsvp_persist_clean_sess (db : DbState) (sess : Session) (rate2 : List Nat)
    (c_ins c_refetch c_save insert_ok : Bool) (row : RsvpRow) :
    (rsvp_persist_clean db sess rate2 c_ins c_refetch c_save insert_ok row).sess = sess := by
  rw [rsvp_persist_clean]
  repeat' split
  all_goals simp

theorem rsvp_persist_clean_no_conn (db : DbState) (sess : Session) (rate2 : List Nat)
    (c_refetch c_save insert_ok : Bool) (row : RsvpRow) :
    rsvp_persist_clean db sess rate2 false c_refetch c_save insert_ok row =
      ⟨.rsvpError "db_error", db, sess, rate2⟩ := rfl

/-! Claim C4. -/

/-- C4: amended. A successful clean submission does not clear the
pending stage: the submission flow returns the session unchanged on
every path except the soft-duplicate warning path, which overwrites the
stage; in particular a stale pending stage survives a clean submission,
and only the confirm action clears it. -/
theorem c4_submission_changes_session_only_by_staging
    (db : DbState) (sess : Session) (rate : List Nat) (now : Nat)
    (c_ev c_dup c_ins c_refetch c_save insert_ok : Bool)
    (eu nameF emailF phoneF addF tok : String) (nid : Nat) :
    (rsvp_event db sess rate now c_ev c_dup c_ins c_refetch c_save insert_ok
      eu nameF emailF phoneF addF tok nid).sess = sess ∨
    (rsvp_event db sess rate now c_ev c_dup c_ins c_refetch c_save insert_ok
      eu nameF emailF phoneF addF tok nid).outcome = .rsvpWarning := by
  rw [rsvp_event]
  repeat' split
  all_goals simp [rsvp_persist_clean_sess]

def c4x_db : DbState := ⟨some ⟨"Tech Talk", 0⟩, none, []⟩

def c4x_pending : PendingRsvp := ⟨"Old Name", "old@x.com", "", ""⟩

def c4x_sess : Session := ⟨true, some c4x_pending, false⟩

/-- C4: counterexample. A clean submission against an empty store
succeeds and persists, yet the pending stage staged earlier in the
session is still present afterwards: the clean path never clears it. -/
theorem c4_counterexample_stale_stage_survives_clean_submission :
    (rsvp_event c4x_db c4x_sess [] 1000 true true true true true true
      "E" "Jane Doe" "jane@x.com" "" "" "tok" 1).outcome = .rsvpSuccess ∧
    (rsvp_event c4x_db c4x_sess [] 1000 true true true true true true
      "E" "Jane Doe" "jane@x.com" "" "" "tok" 1).sess.pending_rsvp =
      some c4x_pending := by decide

/-! Claim C5. -/

/-- C5: amended. Store outages are not uniformly surfaced as db_error.
What holds: a submission whose INSERT connection is unavailable never
reports success and leaves the store unchanged (the clean path surfaces
db_error); but a duplicate check run against an unavailable store
silently yields the clean classification, and a confirmation whose
INSERT connection is unavailable reports success to the guest while
persisting nothing and keeping the pending stage. -/
theorem c5_store_outage_behaviour :
    (∀ (db : DbState) (sess : Session) (rate : List Nat) (now : Nat)
       (c_ev c_dup c_refetch c_save insert_ok : Bool)
       (eu nameF emailF phoneF addF tok : String) (nid : Nat),
      (rsvp_event db sess rate now c_ev c_dup false c_refetch c_save insert_ok
        eu nameF emailF phoneF addF tok nid).db = db ∧
      (rsvp_event db sess rate now c_ev c_dup false c_refetch c_save insert_ok
        eu nameF emailF phoneF addF tok nid).outcome ≠ .rsvpSuccess) ∧
    (∀ (rsvps : List RsvpRow) (eu name email phone : String),
      check_rsvp_duplicate false rsvps eu name email phone = (false, [], none)) ∧
    (∀ (db : DbState) (sess : Session) (c_save insert_ok : Bool) (eu : String)
       (nid : Nat) (p : PendingRsvp) (ev : EventData),
      sess.authenticated = true → db.event = some ev →
      sess.pending_rsvp = some p →
      pyStrip p.name ≠ "" → pyStrip p.email ≠ "" →
      confirm_rsvp_anyway db sess true false c_save insert_ok eu nid =
        ⟨.rsvpSuccess, db, sess⟩) := by
  refine ⟨?_, ?_, ?_⟩
  · intro db sess rate now c_ev c_dup c_refetch c_save insert_ok eu nameF emailF
      phoneF addF tok nid
    constructor
    · rw [rsvp_event]
      repeat' split
      all_goals simp [rsvp_persist_clean_no_conn]
    · rw [rsvp_event]
      repeat' split
      all_goals simp [rsvp_persist_clean_no_conn]
  · intro rsvps eu name email phone
    rfl
  · intro db sess c_save insert_ok eu nid p ev hauth hev hp hname hemail
    simp [confirm_rsvp_anyway, get_event_from_db, hauth, hev, hp, hname, hemail]

def c5x_db : DbState := ⟨some ⟨"Gala", 0⟩, none, []⟩

def c5x_sess : Session := ⟨true, some ⟨"John Smith", "j@x.com", "", ""⟩, false⟩

/-- C5: counterexample. With the store unreachable at the confirmation's
INSERT step, the operation is not abandoned with db_error: it reports
success to the guest while nothing is persisted and the pending stage
survives. -/
theorem c5_counterexample_confirm_reports_success_without_store :
    confirm_rsvp_anyway c5x_db c5x_sess true false true true "E" 1 =
      ⟨.rsvpSuccess, c5x_db, c5x_sess⟩ := by decide

def c5w_db : DbState := ⟨some ⟨"Gala", 0⟩, none, []⟩

def c5w_sess : Session := ⟨true, some ⟨"Ann Lee", "a@x.com", "", ""⟩, false⟩

/-- C5: witness applying the amended theorem at concrete states. -/
theorem c5_store_outage_behaviour_witness :
    ((rsvp_event c5w_db c5w_sess [] 5 true true false true true true
        "E" "Ann Lee" "a@x.com" "" "" "tok" 1).db = c5w_db ∧
     (rsvp_event c5w_db c5w_sess [] 5 true true false true true true
        "E" "Ann Lee" "a@x.com" "" "" "tok" 1).outcome ≠ .rsvpSuccess) ∧
    check_rsvp_duplicate false [] "E" "Ann Lee" "a@x.com" "" = (false, [], none) ∧
    (c5w_sess.authenticated = true ∧
     confirm_rsvp_anyway c5w_db c5w_sess true false true true "E" 1 =
       ⟨.rsvpSuccess, c5w_db, c5w_sess⟩) :=
  ⟨c5_store_outage_behaviour.1 c5w_db c5w_sess [] 5 true true true true true
     "E" "Ann Lee" "a@x.com" "" "" "tok" 1,
   c5_store_outage_behaviour.2.1 [] "E" "Ann Lee" "a@x.com" "",
   rfl,
   c5_store_outage_behaviour.2.2 c5w_db c5w_sess true true "E" 1
     ⟨"Ann Lee", "a@x.com", "", ""⟩ ⟨"Gala", 0⟩ rfl rfl rfl (by decide) (by decide)⟩

/-! Claim C6. -/

/-- C6: amended. RSVP submissions are capped at 3 attempts per 300
seconds per source address and admin logins at 5 per 900 seconds, the
check happening before validation, but the window is sliding rather
than fixed: a request is refused exactly when max_requests earlier
timestamps lie within the trailing window_seconds of the current time.
The confirm action performs no rate-limit check at all and can never
produce the rate-limited outcome. -/
theorem c6_rate_caps_are_sliding_and_confirm_is_uncapped :
    (∀ (prev : List Nat) (now maxr w : Nat),
      (is_rate_limited prev now maxr w).1 = true ↔
        maxr ≤ (prev.filter (fun t => now - t < w)).length) ∧
    (∀ (db : DbState) (sess : Session) (rate : List Nat) (now : Nat)
       (c_ev c_dup c_ins c_refetch c_save insert_ok : Bool)
       (eu nameF emailF phoneF addF tok : String) (nid : Nat),
      sess.authenticated = true →
      (is_rate_limited rate now 3 300).1 = true →
      (rsvp_event db sess rate now c_ev c_dup c_ins c_refetch c_save insert_ok
        eu nameF emailF phoneF addF tok nid).outcome =
        .rsvpError "Too many RSVP attempts. Please try again later.") ∧
    (∀ (db : DbState) (rate : List Nat) (now : Nat) (env : Option String)
       (supplied : String) (sess : Session) (ev : EventData),
      db.event = some ev →
      (is_rate_limited rate now 5 900).1 = true →
      (admin_login_post true db rate now env supplied sess).1 = .tooManyAttempts) ∧
    (∀ (db : DbState) (sess : Session) (c_ev c_ins c_save insert_ok : Bool)
       (eu : String) (nid : Nat),
      (confirm_rsvp_anyway db sess c_ev c_ins c_save insert_ok eu nid).outcome ≠
        .rsvpError "Too many RSVP attempts. Please try again later.") := by
  refine ⟨?_, ?_, ?_, ?_⟩
  · intro prev now maxr w
    simp only [is_rate_limited]
    split
    · simp_all
    · simp_all
  · intro db sess rate now c_ev c_dup c_ins c_refetch c_save insert_ok eu nameF
      emailF phoneF addF tok nid hauth hlim
    rw [rsvp_event]
    simp [hauth, hlim]
  · intro db rate now env supplied sess ev hev hlim
    simp [admin_login_post, get_event_from_db, hev, hlim]
  · intro db sess c_ev c_ins c_save insert_ok eu nid
    rw [confirm_rsvp_anyway]
    repeat' split
    all_goals simp

/-- C6: counterexample. Three requests late in a fixed window, then one
just after the window boundary: the code refuses the fourth request
while a fixed-window limiter would admit it, so the window the code
implements is sliding, not fixed. -/
theorem c6_counterexample_window_is_not_fixed :
    (is_rate_limited [290, 291, 292] 310 3 300).1 = true ∧
    spec_fixed_window_limited [290, 291, 292] 310 3 300 = false := by decide

def c6w_db : DbState := ⟨some ⟨"Gala", 0⟩, none, []⟩

def c6w_sess : Session := ⟨true, none, false⟩

/-- C6: witness applying the amended theorem at concrete inputs. -/
theorem c6_rate_caps_are_sliding_and_confirm_is_uncapped_witness :
    ((is_rate_limited [0, 1, 2] 100 3 300).1 = true ↔
      3 ≤ ([0, 1, 2].filter (fun t => 100 - t < 300)).length) ∧
    (rsvp_event c6w_db c6w_sess [0, 1, 2] 100 true true true true true true
      "E" "Ann Lee" "a@x.com" "" "" "t" 1).outcome =
      .rsvpError "Too many RSVP attempts. Please try again later." ∧
    (admin_login_post true c6w_db [0, 1, 2, 3, 4] 100 (some "ac") "x" c6w_sess).1 =
      .tooManyAttempts ∧
    (confirm_rsvp_anyway c6w_db c6w_sess true true true true "E" 1).outcome ≠
      .rsvpError "Too many RSVP attempts. Please try again later." :=
  ⟨c6_rate_caps_are_sliding_and_confirm_is_uncapped.1 [0, 1, 2] 100 3 300,
   c6_rate_caps_are_sliding_and_confirm_is_uncapped.2.1 c6w_db c6w_sess [0, 1, 2]
     100 true true true true true true "E" "Ann Lee" "a@x.com" "" "" "t" 1
     rfl (by decide),
   c6_rate_caps_are_sliding_and_confirm_is_uncapped.2.2.1 c6w_db [0, 1, 2, 3, 4]
     100 (some "ac") "x" c6w_sess ⟨"Gala", 0⟩ rfl (by decide),
   c6_rate_caps_are_sliding_and_confirm_is_uncapped.2.2.2 c6w_db c6w_sess
     true true true true "E" 1⟩

/-! Claim C7. -/

/-- C7: for every event with no stored passcode hash, both the event
page gate and the authenticate route grant access whatever the supplied
secret, empty or absent included, and mark the session authenticated
for the event without consulting the hash-verification function. -/
theorem c7_no_passcode_hash_always_grants
    (db : DbState) (verify : String → Bool) (sess : Session)
    (password : Option String) (pw : String) (ev : EventData)
    (hev : db.event = some ev) (hph : db.passcode_hash = none) :
    (event_page_gate true db verify sess password).1 = .showEvent ∧
    (event_page_gate true db verify sess password).2.authenticated = true ∧
    (authenticate_event true db verify sess pw).1 = .redirectEvent ∧
    (authenticate_event true db verify sess pw).2.authenticated = true := by
  simp [event_page_gate, authenticate_event, get_event_from_db, hev, hph]

def c7w_db : DbState := ⟨some ⟨"Tech Talk", 0⟩, none, []⟩

/-- C7: witness at a concrete passcode-free event, with a verifier that
rejects everything and a wrong supplied password. -/
theorem c7_no_passcode_hash_always_grants_witness :
    c7w_db.passcode_hash = none ∧
    (event_page_gate true c7w_db (fun _ => false) ⟨false, none, false⟩
      (some "wrong")).1 = .showEvent ∧
    (authenticate_event true c7w_db (fun _ => false) ⟨false, none, false⟩ "").1 =
      .redirectEvent :=
  ⟨rfl,
   (c7_no_passcode_hash_always_grants c7w_db (fun _ => false) ⟨false, none, false⟩
     (some "wrong") "" ⟨"Tech Talk", 0⟩ rfl rfl).1,
   (c7_no_passcode_hash_always_grants c7w_db (fun _ => false) ⟨false, none, false⟩
     (some "wrong") "" ⟨"Tech Talk", 0⟩ rfl rfl).2.2.1⟩

/-! Helper lemmas about the verification route. -/

theorem mark_verified_row_token (token : String) (r : RsvpRow) :
    (mark_verified_row token r).verification_token = r.verification_token := by
  rw [mark_verified_row]
  split <;> rfl

theorem mark_verified_row_uuid (token : String) (r : RsvpRow) :
    (mark_verified_row token r).event_uuid = r.event_uuid := by
  rw [mark_verified_row]
  split <;> rfl

theorem mark_verified_row_idem (token : String) (r : RsvpRow) :
    mark_verified_row token (mark_verified_row token r) = mark_verified_row token r := by
  cases h : token_row_matches token r with
  | false => simp [mark_verified_row, h]
  | true =>
    have h2 : token_row_matches token
        { r with email_verified := true } = true := by
      simpa [token_row_matches] using h
    simp [mark_verified_row, h, h2]

theorem filter_map_mark (token : String) (l : List RsvpRow) :
    (l.map (mark_verified_row token)).filter (token_row_matches token) =
      (l.filter (token_row_matches token)).map (mark_verified_row token) := by
  induction l with
  | nil => rfl
  | cons a t ih =>
    have h2 : token_row_matches token (mark_verified_row token a) =
        token_row_matches token a := by
      rw [token_row_matches, mark_verified_row_token, token_row_matches]
    cases h : token_row_matches token a with
    | false => simp [List.filter_cons, h, h2, ih]
    | true => simp [List.filter_cons, h, h2, ih]

theorem map_mark_idem (token : String) (l : List RsvpRow) :
    (l.map (mark_verified_row token)).map (mark_verified_row token) =
      l.map (mark_verified_row token) := by
  rw [List.map_map]
  exact List.map_congr_left (fun x _ => mark_verified_row_idem token x)

theorem verify_email_store (rsvps : List RsvpRow) (token : String) :
    (verify_email true rsvps token).2 = rsvps.map (mark_verified_row token) := by
  unfold verify_email
  rw [if_pos rfl]
  cases h : rsvps.filter (token_row_matches token) <;> simp [h]

theorem verify_email_second_resolution (rsvps : List RsvpRow) (token : String) :
    verify_email true (verify_email true rsvps token).2 token =
      verify_email true rsvps token := by
  rw [verify_email_store]
  unfold verify_email
  rw [if_pos rfl, if_pos rfl, filter_map_mark]
  cases h : rsvps.filter (token_row_matches token) with
  | nil =>
    simp [h]
    exact fun a _ => mark_verified_row_idem token a
  | cons r t =>
    simp [h, mark_verified_row_uuid]
    exact fun a _ => mark_verified_row_idem token a

/-! Claim C8. -/

/-- C8: resolving the same verification token twice is idempotent: the
second resolution returns the same response and the same store as the
first, and after the first resolution every row matching the token has
its verified flag set, so the second application changes no flag and
applies no further side effect. -/
theorem c8_verify_email_idempotent (rsvps : List RsvpRow) (token : String) :
    verify_email true (verify_email true rsvps token).2 token =
      verify_email true rsvps token ∧
    ((verify_email true rsvps token).2.all
      (fun r => !token_row_matches token r || r.email_verified)) = true := by
  refine ⟨verify_email_second_resolution rsvps token, ?_⟩
  rw [verify_email_store, List.all_eq_true]
  intro r hr
  rw [List.mem_map] at hr
  obtain ⟨x, hx, rfl⟩ := hr
  cases h : token_row_matches token x with
  | false => simp [mark_verified_row, h]
  | true =>
    have hp : x.verification_token = some token := by
      simpa [token_row_matches] using h
    simp [mark_verified_row, token_row_matches, hp]

/-! Claim C9. -/

/-- C9: amended. Verification tokens are not single-use: resolution
leaves every token column exactly as it was, so after a successful
resolve the same token still matches and a second resolve returns the
same successful response rather than NOT_FOUND. -/
theorem c9_token_survives_resolution (rsvps : List RsvpRow) (token : String) :
    ((verify_email true rsvps token).2.map (fun r => r.verification_token)) =
      rsvps.map (fun r => r.verification_token) ∧
    (verify_email true (verify_email true rsvps token).2 token).1 =
      (verify_email true rsvps token).1 := by
  constructor
  · rw [verify_email_store, List.map_map]
    exact List.map_congr_left (fun x _ => mark_verified_row_token token x)
  · rw [verify_email_second_resolution]

def c9x_row : RsvpRow := ⟨1, "E", "jane doe", "jane@x.com", "", "", false, some "tok"⟩

/-- C9: counterexample. A first resolution succeeds, yet the stored
token field is not cleared, and a second resolution of the same token
returns the verified page again instead of NOT_FOUND. -/
theorem c9_counterexample_token_not_consumed :
    (verify_email true [c9x_row] "tok").1 = .verifiedPage "E" ∧
    ((verify_email true [c9x_row] "tok").2.map (fun r => r.verification_token)) =
      [some "tok"] ∧
    (verify_email true (verify_email true [c9x_row] "tok").2 "tok").1 =
      .verifiedPage "E" := by decide

/-! Claim C10. -/

/-- C10: invoking the confirm action with no pending RSVP staged in the
session redirects plainly to the event page: no row is inserted, the
registered counter is untouched, the whole database state and session
are returned unchanged, and no error code is surfaced. -/
theorem c10_confirm_without_pending_is_noop
    (db : DbState) (sess : Session) (c_ins c_save insert_ok : Bool)
    (eu : String) (nid : Nat) (ev : EventData)
    (hauth : sess.authenticated = true) (hev : db.event = some ev)
    (hp : sess.pending_rsvp = none) :
    confirm_rsvp_anyway db sess true c_ins c_save insert_ok eu nid =
      ⟨.redirectPlain, db, sess⟩ := by
  simp [confirm_rsvp_anyway, get_event_from_db, hauth, hev, hp]

def c10w_db : DbState := ⟨some ⟨"Gala", 3⟩, some "h", []⟩

def c10w_sess : Session := ⟨true, none, false⟩

/-- C10: witness at a concrete authenticated session with no stage. -/
theorem c10_confirm_without_pending_is_noop_witness :
    c10w_sess.authenticated = true ∧
    c10w_db.event = some ⟨"Gala", 3⟩ ∧
    c10w_sess.pending_rsvp = none ∧
    confirm_rsvp_anyway c10w_db c10w_sess true true true true "E" 1 =
      ⟨.redirectPlain, c10w_db, c10w_sess⟩ :=
  ⟨rfl, rfl, rfl,
   c10_confirm_without_pending_is_noop c10w_db c10w_sess true true true "E" 1
     ⟨"Gala", 3⟩ rfl rfl rfl⟩

end EventApp

